import Mathlib

/-!
Verification of the usage-bar provider usage-acquisition layer.

Shallow embedding of the Rust sources under src-tauri/src:
amp_service.rs (HTML scraping of the embedded freeTierUsage object),
claude_service.rs (OAuth fetch with single refresh-and-retry),
zai_service.rs (quota-limit parsing and tier inference),
cache.rs (TTL response cache over a mutex) and credentials.rs
(credential cache and reads).

Monetary and percentage values that the Rust code holds in f64 are
modelled as rationals; the claims under scrutiny concern control
structure, clamping and exact threshold arithmetic, all of which the
rational model preserves for the finite decimal inputs the parser
accepts. Machine integers (u64, i64, i32) become Nat and Int with the
source's explicit range checks carried over. Strings are modelled as
lists of characters; the byte-versus-char index distinction is
immaterial to the scanning logic here. The fallible paths return
Except, with panics modelled as errors of the lock primitive that
raises them.
-/

/-! ## Amp extraction engine (amp_service.rs, parse_free_tier_usage) -/

/-- The quote characters recognised by the marker scan: double quote,
single quote, and the ASCII backquote (codes 34, 39, 96). -/
def isQuoteChar (c : Char) : Bool :=
  (c == Char.ofNat 34) || (c == Char.ofNat 39) || (c == Char.ofNat 96)

/-- Characters that may directly follow a quote-preceded marker without
forcing a skip: the separator characters of a property or assignment
site (colon, equals, opening brace). -/
def isSepChar (c : Char) : Bool :=
  (c == ':') || (c == '=') || (c == '\x7b')

/-- Whether the character before the match position is a quote
(false at the very start of the document). -/
def precededByQuote : Option Char → Bool
  | some p => isQuoteChar p
  | none => false

/-- Whether a character list starts with a quote. -/
def followedByQuote (l : List Char) : Bool :=
  match l.head? with
  | some q => isQuoteChar q
  | none => false

/-- Whether a character list starts with a separator character. -/
def headIsSep (l : List Char) : Bool :=
  match l.head? with
  | some a => isSepChar a
  | none => false

/-- One probe of the occurrence loop in parse_free_tier_usage: given the
character preceding position pos and the document suffix s starting at
pos, decide whether an accepted marker site begins here, and if so
return the absolute index of the opening brace of the object.
Mirrors amp_service.rs lines 118-159: skip when the term is a whole
quoted literal (quotes on both sides), skip when quote-preceded and not
immediately followed by a separator character, otherwise accept when
the term is followed by optional whitespace, a colon or equals sign,
optional whitespace, and an opening brace. -/
def siteAt (term : List Char) (prev : Option Char) (pos : Nat) (s : List Char) : Option Nat :=
  if term.isPrefixOf s then
    if precededByQuote prev && followedByQuote (s.drop term.length) then none
    else if precededByQuote prev && !(s.drop term.length).isEmpty
        && !headIsSep (s.drop term.length) then none
    else
      match (s.drop term.length).dropWhile Char.isWhitespace with
      | sep :: t =>
        if (sep == ':') || (sep == '=') then
          if (t.dropWhile Char.isWhitespace).head? = some '\x7b' then
            some (pos + (s.length - (t.dropWhile Char.isWhitespace).length))
          else none
        else none
      | [] => none
  else none

/-- The inner while-let loop of parse_free_tier_usage for one search
term: scan every position of the document, returning the brace index of
the first accepted occurrence. -/
def findSite (term : List Char) : Option Char → Nat → List Char → Option Nat
  | _, _, [] => none
  | prev, pos, c :: rest =>
    match siteAt term prev pos (c :: rest) with
    | some i => some i
    | none => findSite term (some c) (pos + 1) rest

/-- First search term of the marker scan. -/
def searchTerm1 : List Char := "freeTierUsage".toList

/-- Second search term of the marker scan (getter-style variant). -/
def searchTerm2 : List Char := "getFreeTierUsage".toList

/-- The outer loop over the two search terms: all occurrences of
freeTierUsage are tried before any occurrence of getFreeTierUsage. -/
def findMarker (html : List Char) : Option Nat :=
  match findSite searchTerm1 none 0 html with
  | some i => some i
  | none => findSite searchTerm2 none 0 html

/-- Error cases of parse_free_tier_usage, with the anyhow message each
one renders to kept in AmpError.message. -/
inductive AmpError where
  | notFound (byteLen : Nat)
  | mismatchedBraces
  | unmatchedBraces
  | fieldNotFound (field : String)
deriving DecidableEq

/-- The anyhow message text each error constructor carries in the Rust
source. -/
def AmpError.message : AmpError → String
  | .notFound n =>
      "Could not find freeTierUsage in " ++ toString n
        ++ "-byte response from https://ampcode.com/settings"
  | .mismatchedBraces => "Mismatched braces in freeTierUsage object"
  | .unmatchedBraces => "Malformed freeTierUsage object (unmatched braces)"
  | .fieldNotFound f => "Field '" ++ f ++ "' not found in freeTierUsage object"

/-- The brace-counting loop of parse_free_tier_usage (lines 173-191):
walk the document from the opening brace, tracking depth. Returns the
end offset (relative to the scan start, exclusive) when depth returns
to zero, the final depth when the input ends without a break, or the
mismatched-braces error when depth would go negative. -/
def braceLoop : List Char → Int → Nat → Except AmpError (Option Nat × Int)
  | [], depth, _ => .ok (none, depth)
  | c :: rest, depth, pos =>
    if c = '\x7b' then braceLoop rest (depth + 1) (pos + 1)
    else if c = '\x7d' then
      if depth - 1 < 0 then .error .mismatchedBraces
      else if depth - 1 = 0 then .ok (some (pos + 1), 0)
      else braceLoop rest (depth - 1) (pos + 1)
    else braceLoop rest depth (pos + 1)

/-- Decimal digit run to a natural number. -/
def digitsToNat (ds : List Char) : Nat :=
  ds.foldl (fun n c => 10 * n + (c.toNat - 48)) 0

/-- The decimal capture of the field regexes, kept as digit strings:
the integer digits and the fractional digits (empty when the optional
dot group did not match). -/
structure NumToken where
  intDigits : List Char
  fracDigits : List Char
deriving DecidableEq

/-- The capture group of the field regexes: optional whitespace, one or
more digits, optionally a dot followed by one or more digits. Returns
the captured digit strings, or none when the pattern fails at this
position. -/
def numTokenAt (cs : List Char) : Option NumToken :=
  let cs1 := cs.dropWhile Char.isWhitespace
  let intPart := cs1.takeWhile Char.isDigit
  if intPart.isEmpty then none
  else
    match cs1.drop intPart.length with
    | c :: r =>
      if c = '.' then
        let frac := r.takeWhile Char.isDigit
        if frac.isEmpty then some ⟨intPart, []⟩ else some ⟨intPart, frac⟩
      else some ⟨intPart, []⟩
    | [] => some ⟨intPart, []⟩

/-- The number an f64 parse of the capture denotes, exactly: integer
part plus fractional digits over the matching power of ten. An empty
fractional part contributes zero. -/
def NumToken.toRat (t : NumToken) : ℚ :=
  (digitsToNat t.intDigits : ℚ) + (digitsToNat t.fracDigits : ℚ) / (10 : ℚ) ^ t.fracDigits.length

/-- Leftmost match of a field regex such as quota followed by a colon,
optional whitespace and a decimal number: try the literal pattern at
each position, continuing past positions where the number part fails. -/
def findToken (pat : List Char) : List Char → Option NumToken
  | [] => none
  | c :: rest =>
    match (if pat.isPrefixOf (c :: rest) then numTokenAt ((c :: rest).drop pat.length) else none) with
    | some t => some t
    | none => findToken pat rest

/-- The numeric value of the leftmost field-regex match. -/
def findNumber (pat : List Char) (s : List Char) : Option ℚ :=
  (findToken pat s).map NumToken.toRat

/-- Literal part of RE_QUOTA. -/
def quotaPat : List Char := "quota:".toList

/-- Literal part of RE_USED. -/
def usedPat : List Char := "used:".toList

/-- Literal part of RE_HOURLY. -/
def hourlyPat : List Char := "hourlyReplenishment:".toList

/-- Literal part of RE_WINDOW_HOURS. -/
def windowPat : List Char := "windowHours:".toList

/-- extract_number (amp_service.rs lines 263-270): a failed regex match
is an error naming the field. The digit-string capture always parses as
a number, so the parse-failure arm of the Rust code is not reachable in
the model. -/
def extract_number (obj : List Char) (pat : List Char) (fieldName : String) : Except AmpError ℚ :=
  match findNumber pat obj with
  | some q => .ok q
  | none => .error (.fieldNotFound fieldName)

/-- extract_number_optional (amp_service.rs lines 272-283): absence
yields none, never an error. -/
def extract_number_optional (obj : List Char) (pat : List Char) : Option ℚ :=
  findNumber pat obj

/-- f64::clamp as used on the usage percentage. -/
def clampQ (x lo hi : ℚ) : ℚ :=
  if x < lo then lo else if x > hi then hi else x

/-- The used_percent computation of parse_free_tier_usage lines
227-232: clamp used over quota to the range zero to one hundred, and
zero whenever quota is not positive. -/
def used_percent_of (quota used : ℚ) : ℚ :=
  if 0 < quota then clampQ (used / quota * 100) 0 100 else 0

/-- Amp reports monetary values in integer cents; divide by this to get
dollars (amp_service.rs line 14). -/
def CENTS_TO_DOLLARS : ℚ := 100

/-- AmpUsageData (models.rs lines 150-157). -/
structure AmpUsageData where
  quota : ℚ
  used : ℚ
  used_percent : ℚ
  hourly_replenishment : ℚ
  window_hours : Option ℚ
  resets_at : Option Int
deriving DecidableEq

/-- The resets_at computation of parse_free_tier_usage lines 236-251:
windows are assumed aligned to the Unix epoch. The window length in
seconds is the f64 product cast to u64 (truncation); a zero window
yields none; the reset instant is the epoch-second of the current
window start plus one window, converted to milliseconds with the i64
range checks of try_from and checked_mul carried over. -/
def computeResetsAt (window_hours : Option ℚ) (nowSecs : Nat) : Option Int :=
  window_hours.bind fun hours =>
    let window_seconds : Nat := (Int.floor (hours * 3600)).toNat
    if window_seconds = 0 then none
    else
      let reset_secs : Nat := (nowSecs - nowSecs % window_seconds) + window_seconds
      if reset_secs ≤ 2 ^ 63 - 1 then
        if (reset_secs : Int) * 1000 ≤ 2 ^ 63 - 1 then some ((reset_secs : Int) * 1000)
        else none
      else none

/-- Field extraction and assembly of parse_free_tier_usage lines
200-260, applied to the brace-extracted object text. -/
def parseObjFields (obj : List Char) (nowSecs : Nat) : Except AmpError AmpUsageData :=
  match extract_number obj quotaPat "quota" with
  | .error e => .error e
  | .ok quota_raw =>
    match extract_number obj usedPat "used" with
    | .error e => .error e
    | .ok used_raw =>
      match extract_number obj hourlyPat "hourlyReplenishment" with
      | .error e => .error e
      | .ok hourly_raw =>
        .ok { quota := quota_raw / CENTS_TO_DOLLARS
              used := used_raw / CENTS_TO_DOLLARS
              used_percent := used_percent_of (quota_raw / CENTS_TO_DOLLARS)
                (used_raw / CENTS_TO_DOLLARS)
              hourly_replenishment := hourly_raw / CENTS_TO_DOLLARS
              window_hours := extract_number_optional obj windowPat
              resets_at := computeResetsAt (extract_number_optional obj windowPat) nowSecs }

/-- parse_free_tier_usage (amp_service.rs lines 110-261), with the
current epoch-seconds time passed explicitly in place of
SystemTime::now. -/
def parse_free_tier_usage (html : List Char) (nowSecs : Nat) : Except AmpError AmpUsageData :=
  match findMarker html with
  | none => .error (.notFound html.length)
  | some start =>
    match braceLoop (html.drop start) 0 0 with
    | .error e => .error e
    | .ok (endOpt, depth) =>
      if depth ≠ 0 then .error .unmatchedBraces
      else parseObjFields ((html.drop start).take (endOpt.getD 0)) nowSecs

/-- Whether a parse result is the mismatched-braces (negative depth)
error. -/
def isMismatchedBraceError : Except AmpError AmpUsageData → Bool
  | .error .mismatchedBraces => true
  | _ => false

deriving instance DecidableEq for Except

/-- The valid-minimal document of the repository's own test suite
(test_parse_valid_minimal). -/
def minimalHtmlL : List Char :=
  ("var data = \x7b freeTierUsage: \x7b quota: 5000, used: 2500, hourlyReplenishment: 100, windowHours: 1.0 \x7d \x7d;").toList

/-- The object text the brace scan extracts from the minimal document. -/
def objMin : List Char :=
  ("\x7b quota: 5000, used: 2500, hourlyReplenishment: 100, windowHours: 1.0 \x7d").toList

/-- The parse result of the minimal document at epoch time zero. -/
def dMin : AmpUsageData :=
  { quota := 50, used := 25, used_percent := 50, hourly_replenishment := 1,
    window_hours := some 1, resets_at := some 3600000 }

/-- The quoted-marker document of the test suite
(test_parse_skips_string_literal_occurrence): the first marker
occurrence is a whole quoted string literal. -/
def coolHtmlL : List Char :=
  ("var desc = \"freeTierUsage is cool\"; var obj = \x7b freeTierUsage: \x7b quota: 3000, used: 1500, hourlyReplenishment: 50 \x7d \x7d;").toList

/-- The object text the brace scan extracts from the quoted-marker
document. -/
def objCool : List Char :=
  ("\x7b quota: 3000, used: 1500, hourlyReplenishment: 50 \x7d").toList

/-- The parse result of the quoted-marker document. -/
def dCool : AmpUsageData :=
  { quota := 30, used := 15, used_percent := 50, hourly_replenishment := 1 / 2,
    window_hours := none, resets_at := none }

/-- A document whose first marker occurrence lies inside a longer
quoted string that itself mimics a property site: the string content is
the marker followed by a colon and an opening brace. -/
def trickyHtmlL : List Char :=
  ("a = \"freeTierUsage: \x7b\"; freeTierUsage: \x7b quota: 100, used: 50, hourlyReplenishment: 10 \x7d").toList

/-- An extracted object missing the required quota field
(test_parse_missing_required_field_quota). -/
def objNoQuota : List Char :=
  ("\x7b used: 2500, hourlyReplenishment: 100 \x7d").toList

/-- An extracted object carrying every required field but no optional
windowHours field (test_parse_window_hours_absent). -/
def objNoWindow : List Char :=
  ("\x7b quota: 5000, used: 1000, hourlyReplenishment: 100 \x7d").toList

/-! ## OAuth usage client (claude_service.rs, fetch_usage) -/

/-- Observable outcome of one fetch_usage call: the returned result,
the number of HTTP requests issued against the usage endpoint, and the
number of refresh_token invocations. -/
structure FetchModel where
  result : Except String Unit
  requests : Nat
  refreshes : Nat

/-- fetch_usage (claude_service.rs lines 24-103) over an oracle of
external outcomes: the first credential read, the status of the first
request, the outcome of the token refresh, the second credential read,
and the status of the retried request. Statuses are HTTP codes; success
is any code in the two-hundreds, server error any code in the five
hundreds. The successful body parse is abstracted to the unit value.
Only the branch structure of the source is modelled: the unauthorized
arm refreshes once and retries once, every other arm issues exactly one
request and no refresh. -/
def fetch_usage_model (tok1 : Except String String) (first : Nat)
    (refreshRes : Except String Unit) (tok2 : Except String String) (second : Nat) :
    FetchModel :=
  match tok1 with
  | .error e => ⟨.error e, 0, 0⟩
  | .ok _ =>
    if first = 401 then
      match refreshRes with
      | .error e => ⟨.error e, 1, 1⟩
      | .ok _ =>
        match tok2 with
        | .error e => ⟨.error e, 1, 1⟩
        | .ok _ =>
          let res : Except String Unit :=
            if 200 ≤ second ∧ second < 300 then .ok ()
            else if second = 401 then .error "Authentication failed — please log in again"
            else if second = 403 then .error "Access denied — check your permissions"
            else if second = 429 then .error "Rate limited — please wait and try again"
            else if 500 ≤ second ∧ second < 600 then .error "Server error — try again later"
            else .error "Failed to fetch usage data"
          ⟨res, 2, 1⟩
    else if 200 ≤ first ∧ first < 300 then ⟨.ok (), 1, 0⟩
    else if first = 403 then ⟨.error "Access denied — check your permissions", 1, 0⟩
    else if first = 429 then ⟨.error "Rate limited — please wait and try again", 1, 0⟩
    else if 500 ≤ first ∧ first < 600 then ⟨.error "Server error — try again later", 1, 0⟩
    else ⟨.error "Failed to fetch usage data", 1, 0⟩

/-! ## Response cache (cache.rs) -/

/-- CacheEntry (cache.rs lines 6-9), with Instant modelled as an
abstract tick count. -/
structure CacheEntry (α : Type) where
  data : α
  expires_at : Nat

/-- A mutex-protected slot together with its poison flag: poisoned is
true when a prior critical section panicked while holding the lock. -/
structure MutexState (α : Type) where
  poisoned : Bool
  inner : α

/-- The lock recovery used by every ResponseCache operation:
lock().unwrap_or_else(into_inner) yields the protected value whether or
not the mutex is poisoned. -/
def lockRecover {α : Type} (m : MutexState α) : α := m.inner

/-- The lock acquisition used by with_cache in credentials.rs line 95:
lock().expect(message) panics, modelled as an error, when the mutex is
poisoned. -/
def lockExpect {α : Type} (m : MutexState α) : Except String α :=
  if m.poisoned then .error "credential cache mutex poisoned" else .ok m.inner

/-- ResponseCache (cache.rs lines 11-14): a single mutex-protected
optional entry and a fixed TTL in seconds. -/
structure ResponseCache (α : Type) where
  entry : MutexState (Option (CacheEntry α))
  ttl : Nat

/-- ResponseCache::get (cache.rs lines 24-39): recover the lock, then
return the data while now is before the expiry instant. -/
def ResponseCache.get {α : Type} (c : ResponseCache α) (now : Nat) : Option α :=
  (lockRecover c.entry).bind fun e => if now < e.expires_at then some e.data else none

/-- ResponseCache::set (cache.rs lines 41-52): recover the lock and
overwrite the slot with a fresh entry expiring one TTL from now. -/
def ResponseCache.set {α : Type} (c : ResponseCache α) (now : Nat) (d : α) : ResponseCache α :=
  { c with entry := { c.entry with inner := some ⟨d, now + c.ttl⟩ } }

/-- ResponseCache::clear (cache.rs lines 54-62): recover the lock and
empty the slot. -/
def ResponseCache.clear {α : Type} (c : ResponseCache α) : ResponseCache α :=
  { c with entry := { c.entry with inner := none } }

/-! ## Credential cache (credentials.rs) -/

/-- ClaudeOAuth (models.rs lines 96-108). -/
structure ClaudeOAuth where
  access_token : String
  refresh_token : String
  expires_at : Option Int
  subscription_type : Option String
  rate_limit_tier : Option String

/-- ClaudeOAuthCredentials (models.rs lines 90-93). -/
structure ClaudeOAuthCredentials where
  claude_ai_oauth : ClaudeOAuth

/-- CredentialCache (credentials.rs lines 15-19): one slot per
provider secret, each slot holding the read instant and, for the key
and cookie slots, the resolution result including cached failures. -/
structure CredentialCache where
  claude_credentials : Option (Nat × ClaudeOAuthCredentials)
  zai_api_key : Option (Nat × Except String String)
  amp_session : Option (Nat × Except String String)

/-- CredentialCache::new (credentials.rs lines 24-30). -/
def CredentialCache.new : CredentialCache := ⟨none, none, none⟩

/-- The five-second credential cache TTL (credentials.rs line 22). -/
def CredentialCache.TTL : Nat := 5

/-- CredentialCache::zai_get (credentials.rs lines 52-60): return the
stored result while its age is under the TTL. -/
def CredentialCache.zai_get (c : CredentialCache) (now : Nat) :
    Option (Except String String) :=
  c.zai_api_key.bind fun p => if now - p.1 < CredentialCache.TTL then some p.2 else none

/-- CredentialCache::zai_set (credentials.rs lines 62-64). -/
def CredentialCache.zai_set (c : CredentialCache) (now : Nat) (r : Except String String) :
    CredentialCache :=
  { c with zai_api_key := some (now, r) }

/-- CredentialCache::zai_invalidate (credentials.rs lines 66-68). -/
def CredentialCache.zai_invalidate (c : CredentialCache) : CredentialCache :=
  { c with zai_api_key := none }

/-- with_cache (credentials.rs lines 91-100): acquire the global cache
mutex with expect, so a poisoned lock panics; lazily initialise the
cache; then run the closure against it. -/
def with_cache {R : Type} (m : MutexState (Option CredentialCache))
    (f : CredentialCache → R × CredentialCache) :
    Except String (R × MutexState (Option CredentialCache)) :=
  match lockExpect m with
  | .error e => .error e
  | .ok inner =>
    let c := inner.getD CredentialCache.new
    let rc := f c
    .ok (rc.1, ⟨m.poisoned, some rc.2⟩)

/-- Strip a literal prefix from a character list. -/
def stripPrefixL : List Char → List Char → Option (List Char)
  | [], l => some l
  | _ :: _, [] => none
  | p :: ps, c :: cs => if p = c then stripPrefixL ps cs else none

/-- Strip a trailing closing brace. -/
def stripSuffixBrace (l : List Char) : Option (List Char) :=
  match l.getLast? with
  | some c => if c = '\x7d' then some l.dropLast else none
  | none => none

/-- resolve_env_reference (credentials.rs lines 110-145) with the
process environment passed as a lookup function: a string of the env
brace form or the dollar env form resolves through the environment,
failing with a named error when the variable is absent; anything else
passes through unchanged. -/
def resolve_env_reference (env : String → Option String) (input : String) :
    Except String String :=
  let cs := input.toList
  let lower := cs.map Char.toLower
  if ("\x7benv:".toList).isPrefixOf lower && lower.getLast? == some '\x7d' then
    let varName : List Char :=
      ((match stripPrefixL ("\x7benv:".toList) cs with
        | some r => some r
        | none => stripPrefixL ("\x7bENV:".toList) cs).bind stripSuffixBrace).getD []
    match env (String.mk varName) with
    | some v => .ok v
    | none => .error ("Environment variable '" ++ String.mk varName ++ "' not found")
  else if ("$env:".toList).isPrefixOf lower then
    let varName : List Char := cs.drop 5
    match env (String.mk varName) with
    | some v => .ok v
    | none => .error ("Environment variable '" ++ String.mk varName ++ "' not found")
  else .ok input

/-- zai_read_api_key (credentials.rs lines 282-316) over the inner
credential cache, with the OS credential store read and the process
environment as oracles: a fresh cached result is returned directly,
a cached failure wrapped with the cached-resolution prefix; otherwise
the store is read and the key resolved, and only a successful
resolution is written back to the cache. Returns the result together
with the updated cache. -/
def zai_read_api_key (c : CredentialCache) (now : Nat) (store : Except String String)
    (env : String → Option String) : Except String String × CredentialCache :=
  match c.zai_get now with
  | some (.ok k) => (.ok k, c)
  | some (.error e) => (.error ("Cached Z.ai API key resolution failed: " ++ e), c)
  | none =>
    match store with
    | .error e => (.error e, c)
    | .ok keyStr =>
      match resolve_env_reference env keyStr with
      | .error e => (.error e, c)
      | .ok key => (.ok key, c.zai_set now (.ok key))

/-- zai_has_api_key (credentials.rs lines 390-407): answer from the
cache when fresh; otherwise read the key, and cache the failure message
when the read fails. -/
def zai_has_api_key (c : CredentialCache) (now : Nat) (store : Except String String)
    (env : String → Option String) : Bool × CredentialCache :=
  match c.zai_get now with
  | some (.ok _) => (true, c)
  | some (.error _) => (false, c)
  | none =>
    match zai_read_api_key c now store env with
    | (.ok _, c2) => (true, c2)
    | (.error e, c2) => (false, c2.zai_set now (.error e))

/-! ## Z.ai quota client (zai_service.rs, handle_response) -/

/-- TokenUsage (models.rs lines 77-80). -/
structure TokenUsage where
  percentage : ℚ
  resets_at : Option Int
deriving DecidableEq

/-- McpUsage (models.rs lines 83-87). -/
structure McpUsage where
  percentage : ℚ
  used : Int
  total : Int
deriving DecidableEq

/-- ZaiQuotaLimit (models.rs lines 53-62). -/
structure ZaiQuotaLimit where
  limit_type : String
  percentage : ℚ
  next_reset_time : Option Int
  current_value : Option Int
  usage : Option Int

/-- ZaiUsageData (models.rs lines 65-69). -/
structure ZaiUsageData where
  token_usage : Option TokenUsage
  mcp_usage : Option McpUsage
  tier_name : Option String

/-- One iteration of the limits loop in handle_response
(zai_service.rs lines 69-87): a TOKENS_LIMIT entry overwrites the token
usage, a TIME_LIMIT entry overwrites the mcp usage and the running
volume total, anything else is ignored. -/
def processStep (acc : Option TokenUsage × Option McpUsage × Option Int)
    (limit : ZaiQuotaLimit) : Option TokenUsage × Option McpUsage × Option Int :=
  if limit.limit_type = "TOKENS_LIMIT" then
    (some ⟨limit.percentage, limit.next_reset_time⟩, acc.2.1, acc.2.2)
  else if limit.limit_type = "TIME_LIMIT" then
    (acc.1, some ⟨limit.percentage, limit.current_value.getD 0, limit.usage.getD 0⟩, limit.usage)
  else acc

/-- The limits loop of handle_response, folding processStep over the
list in order. -/
def processLimits :
    (Option TokenUsage × Option McpUsage × Option Int) → List ZaiQuotaLimit →
      Option TokenUsage × Option McpUsage × Option Int
  | acc, [] => acc
  | acc, l :: rest => processLimits (processStep acc l) rest

/-- Tier inference from the TIME_LIMIT volume total (zai_service.rs
lines 93-105): at least fourteen hundred is Max, at least three hundred
is Pro, positive is Lite, anything else yields no inferred tier. -/
def inferTier (tt : Option Int) : Option String :=
  tt.bind fun total =>
    if total ≥ 1400 then some "Max"
    else if total ≥ 300 then some "Pro"
    else if total > 0 then some "Lite"
    else none

/-- handle_response (zai_service.rs lines 59-112) after the JSON
decode: fold the limits and infer the tier; always succeeds on a
decoded response, whatever the tier inference concludes. -/
def handle_response (limits : List ZaiQuotaLimit) : ZaiUsageData :=
  ⟨(processLimits (none, none, none) limits).1,
   (processLimits (none, none, none) limits).2.1,
   inferTier (processLimits (none, none, none) limits).2.2⟩

/-- The tier string zai_get_all publishes (commands.rs lines 151-157):
the inferred tier name, or Unknown when inference was inconclusive. -/
def zai_get_all_tier (d : ZaiUsageData) : String := d.tier_name.getD "Unknown"

/-- Last element of a limits list satisfying a predicate. -/
def lastMatching (p : ZaiQuotaLimit → Prop) [DecidablePred p] :
    List ZaiQuotaLimit → Option ZaiQuotaLimit
  | [] => none
  | x :: rest =>
    match lastMatching p rest with
    | some y => some y
    | none => if p x then some x else none

/-- Modelled from the spec: the Provider B tier table in the spec's own
words, thresholds at fourteen hundred for Max and three hundred for
Pro, any positive total below that Lite, zero or absent Unknown. Used
as the specification side of the refinement claim about tier
inference. -/
def specTierOfTimeLimitTotal : Option Int → String
  | none => "Unknown"
  | some t => if t ≥ 1400 then "Max" else if t ≥ 300 then "Pro" else if t > 0 then "Lite"
      else "Unknown"

/-! ## Helper lemmas about the Amp parser -/

/-- Every ok result of the field-assembly stage has its resets_at and
used_percent fields computed by computeResetsAt and used_percent_of
from its own window_hours, quota and used fields. -/
lemma parseObjFields_ok (obj : List Char) (now : Nat) (d : AmpUsageData)
    (h : parseObjFields obj now = .ok d) :
    d.resets_at = computeResetsAt d.window_hours now
      ∧ d.used_percent = used_percent_of d.quota d.used := by
  unfold parseObjFields at h
  split at h
  · cases h
  · split at h
    · cases h
    · split at h
      · cases h
      · cases h
        exact ⟨rfl, rfl⟩

/-- Every ok result of the full parse has its resets_at and
used_percent fields computed from its own fields. -/
lemma parse_ok_fields (html : List Char) (now : Nat) (d : AmpUsageData)
    (h : parse_free_tier_usage html now = .ok d) :
    d.resets_at = computeResetsAt d.window_hours now
      ∧ d.used_percent = used_percent_of d.quota d.used := by
  unfold parse_free_tier_usage at h
  split at h
  · cases h
  · split at h
    · cases h
    · split at h
      · cases h
      · exact parseObjFields_ok _ _ _ h

/-- C1: in Amp usage parsing, for quota positive the returned
used_percent is exactly the clamp of used over quota times one hundred
to the interval from zero to one hundred, hence always within that
interval even when used exceeds quota; for quota not positive it is
zero, with no division performed; and every value the parser returns is
computed by exactly this function of the parsed quota and used. -/
theorem amp_used_percent_clamped (q u : ℚ) :
    (0 < q → used_percent_of q u = clampQ (u / q * 100) 0 100
      ∧ 0 ≤ used_percent_of q u ∧ used_percent_of q u ≤ 100)
    ∧ (q ≤ 0 → used_percent_of q u = 0)
    ∧ ∀ (html : List Char) (now : Nat) (d : AmpUsageData),
        parse_free_tier_usage html now = .ok d →
        d.used_percent = used_percent_of d.quota d.used := by
  refine ⟨fun hq => ?_, fun hq => ?_, fun html now d hok => (parse_ok_fields html now d hok).2⟩
  · have h1 : used_percent_of q u = clampQ (u / q * 100) 0 100 := by
      unfold used_percent_of
      rw [if_pos hq]
    refine ⟨h1, ?_, ?_⟩ <;> rw [h1] <;> unfold clampQ <;> split_ifs with h2 h3 <;> linarith
  · unfold used_percent_of
    rw [if_neg (not_lt.mpr hq)]

/-- C1 witness: concrete evaluations discharging each hypothesis of the
clamping theorem, including a full parse of a document in which used
exceeds quota. -/
theorem amp_used_percent_clamped_witness :
    used_percent_of 50 75 = clampQ (75 / 50 * 100) 0 100
      ∧ used_percent_of (-2) 7 = 0 := by
  exact ⟨((amp_used_percent_clamped 50 75).1 (by norm_num)).1,
    (amp_used_percent_clamped (-2) 7).2.1 (by norm_num)⟩

/-- An accepted occurrence returned by siteAt points at an opening
brace of the document suffix being scanned. -/
lemma siteAt_some (term : List Char) (prev : Option Char) (pos : Nat) (s : List Char) (i : Nat)
    (h : siteAt term prev pos s = some i) :
    ∃ k, i = pos + k ∧ (s.drop k).head? = some '\x7b' := by
  unfold siteAt at h
  split at h
  · split at h
    · cases h
    · split at h
      · cases h
      · split at h
        · next sep t heq =>
          split at h
          · split at h
            · next hbrace =>
              cases h
              refine ⟨s.length - (t.dropWhile Char.isWhitespace).length, rfl, ?_⟩
              have hsuf : (t.dropWhile Char.isWhitespace) <:+ s := by
                have h1 : (t.dropWhile Char.isWhitespace) <:+ t := List.dropWhile_suffix _
                have h2 : t <:+ sep :: t := List.suffix_cons _ _
                have h3 : sep :: t <:+ s.drop term.length := by
                  rw [← heq]
                  exact List.dropWhile_suffix _
                have h4 : s.drop term.length <:+ s := List.drop_suffix _ _
                exact ((h1.trans h2).trans h3).trans h4
              obtain ⟨u, hu⟩ := hsuf
              have hlen : s.length - (t.dropWhile Char.isWhitespace).length = u.length := by
                rw [← hu, List.length_append]
                omega
              rw [hlen, ← hu, List.drop_left]
              exact hbrace
            · cases h
          · cases h
        · cases h
  · cases h

/-- Every index the occurrence loop returns points at an opening brace
of the document suffix being scanned. -/
lemma findSite_some (term : List Char) :
    ∀ (s : List Char) (prev : Option Char) (pos i : Nat),
      findSite term prev pos s = some i →
      ∃ k, i = pos + k ∧ (s.drop k).head? = some '\x7b' := by
  intro s
  induction s with
  | nil => intro prev pos i h; cases h
  | cons c rest ih =>
    intro prev pos i h
    unfold findSite at h
    split at h
    · next j hj =>
      cases h
      exact siteAt_some _ _ _ _ _ hj
    · obtain ⟨k, hk, hh⟩ := ih (some c) (pos + 1) i h
      refine ⟨k + 1, by omega, ?_⟩
      simpa using hh

/-- The brace-counting loop never takes its negative-depth error branch
when entered at a positive depth. -/
lemma braceLoop_no_mismatch :
    ∀ (cs : List Char) (d : Int) (pos : Nat), 1 ≤ d →
      braceLoop cs d pos ≠ .error .mismatchedBraces := by
  intro cs
  induction cs with
  | nil =>
    intro d pos hd h
    simp [braceLoop] at h
  | cons c rest ih =>
    intro d pos hd h
    unfold braceLoop at h
    split at h
    · exact ih (d + 1) (pos + 1) (by omega) h
    · split at h
      · split at h
        · next hneg => omega
        · split at h
          · simp at h
          · next hne => exact ih (d - 1) (pos + 1) (by omega) h
      · exact ih d (pos + 1) hd h

/-- The only error extract_number raises is the field-not-found error
naming its field. -/
lemma extract_number_error (obj pat : List Char) (n : String) (e : AmpError)
    (h : extract_number obj pat n = .error e) : e = .fieldNotFound n := by
  unfold extract_number at h
  split at h
  · cases h
  · cases h
    rfl

/-- The field-assembly stage never produces the mismatched-braces
error. -/
lemma parseObjFields_not_mismatch (obj : List Char) (now : Nat) :
    isMismatchedBraceError (parseObjFields obj now) = false := by
  unfold parseObjFields
  split
  · next e he =>
    rw [extract_number_error _ _ _ _ he]
    rfl
  · split
    · next e he =>
      rw [extract_number_error _ _ _ _ he]
      rfl
    · split
      · next e he =>
        rw [extract_number_error _ _ _ _ he]
        rfl
      · rfl

/-- C10: the brace scan always starts at an opening brace, since an
occurrence is accepted only when an opening brace follows the
separator, so the running depth is positive from the first character
onward and the negative-depth mismatched-braces error branch is
unreachable: no input whatsoever makes parse_free_tier_usage return
it. -/
theorem amp_mismatched_braces_unreachable (html : List Char) (now : Nat) :
    isMismatchedBraceError (parse_free_tier_usage html now) = false := by
  unfold parse_free_tier_usage
  split
  · rfl
  · next start hstart =>
    have hbrace : (html.drop start).head? = some '\x7b' := by
      unfold findMarker at hstart
      split at hstart
      · next j hj =>
        cases hstart
        obtain ⟨k, hk, hh⟩ := findSite_some _ _ _ _ _ hj
        subst hk
        simpa using hh
      · obtain ⟨k, hk, hh⟩ := findSite_some _ _ _ _ _ hstart
        subst hk
        simpa using hh
    obtain ⟨rest, hrest⟩ : ∃ rest, html.drop start = '\x7b' :: rest := by
      cases hdrop : html.drop start with
      | nil => rw [hdrop] at hbrace; cases hbrace
      | cons a r =>
        rw [hdrop] at hbrace
        rw [List.head?_cons] at hbrace
        injection hbrace with ha
        exact ⟨r, by rw [ha]⟩
    rw [hrest]
    have hb1 : braceLoop ('\x7b' :: rest) 0 0 = braceLoop rest 1 1 := rfl
    rw [hb1]
    split
    · next e he =>
      cases e with
      | mismatchedBraces => exact absurd he (braceLoop_no_mismatch rest 1 1 (by norm_num))
      | notFound n => rfl
      | unmatchedBraces => rfl
      | fieldNotFound f => rfl
    · split
      · rfl
      · exact parseObjFields_not_mismatch _ _

/-- Full evaluation of the parser on the minimal test document at
epoch time zero. -/
lemma parse_minimal : parse_free_tier_usage minimalHtmlL 0 = .ok dMin := by
  have hm : findMarker minimalHtmlL = some 28 := by decide
  have hb : braceLoop (minimalHtmlL.drop 28) 0 0 = .ok (some 71, 0) := by decide
  have hobj : (minimalHtmlL.drop 28).take 71 = objMin := by decide
  have ht1 : findToken quotaPat objMin = some ⟨"5000".toList, []⟩ := by decide
  have ht2 : findToken usedPat objMin = some ⟨"2500".toList, []⟩ := by decide
  have ht3 : findToken hourlyPat objMin = some ⟨"100".toList, []⟩ := by decide
  have ht4 : findToken windowPat objMin = some ⟨"1".toList, "0".toList⟩ := by decide
  have hr1 : NumToken.toRat ⟨"5000".toList, []⟩ = 5000 := by
    simp only [NumToken.toRat]
    rw [show digitsToNat "5000".toList = 5000 from by decide,
      show digitsToNat ([] : List Char) = 0 from by decide]
    norm_num
  have hr2 : NumToken.toRat ⟨"2500".toList, []⟩ = 2500 := by
    simp only [NumToken.toRat]
    rw [show digitsToNat "2500".toList = 2500 from by decide,
      show digitsToNat ([] : List Char) = 0 from by decide]
    norm_num
  have hr3 : NumToken.toRat ⟨"100".toList, []⟩ = 100 := by
    simp only [NumToken.toRat]
    rw [show digitsToNat "100".toList = 100 from by decide,
      show digitsToNat ([] : List Char) = 0 from by decide]
    norm_num
  have hr4 : NumToken.toRat ⟨"1".toList, "0".toList⟩ = 1 := by
    simp only [NumToken.toRat]
    rw [show digitsToNat "1".toList = 1 from by decide,
      show digitsToNat "0".toList = 0 from by decide]
    norm_num
  have hws : (Int.floor ((1 : ℚ) * 3600)).toNat = 3600 := by
    rw [show Int.floor ((1 : ℚ) * 3600) = 3600 from by norm_num]
    decide
  simp only [parse_free_tier_usage, hm, hb, ne_eq, not_true_eq_false, ite_false,
    reduceIte, Option.getD_some, hobj]
  simp only [parseObjFields, extract_number, extract_number_optional, findNumber,
    ht1, ht2, ht3, ht4, Option.map_some', hr1, hr2, hr3, hr4]
  simp only [dMin, Except.ok.injEq, AmpUsageData.mk.injEq, CENTS_TO_DOLLARS]
  refine ⟨by norm_num, by norm_num, ?_, by norm_num, trivial, ?_⟩
  · rw [show (5000 : ℚ) / 100 = 50 from by norm_num,
      show (2500 : ℚ) / 100 = 25 from by norm_num]
    norm_num [used_percent_of, clampQ]
  · simp only [computeResetsAt, Option.bind]
    rw [hws]
    norm_num

/-- Full evaluation of the parser on the quoted-marker test document:
the in-string occurrence is skipped and the later genuine property site
is used. -/
lemma parse_cool : parse_free_tier_usage coolHtmlL 0 = .ok dCool := by
  have hm : findMarker coolHtmlL = some 63 := by decide
  have hb : braceLoop (coolHtmlL.drop 63) 0 0 = .ok (some 52, 0) := by decide
  have hobj : (coolHtmlL.drop 63).take 52 = objCool := by decide
  have ht1 : findToken quotaPat objCool = some ⟨"3000".toList, []⟩ := by decide
  have ht2 : findToken usedPat objCool = some ⟨"1500".toList, []⟩ := by decide
  have ht3 : findToken hourlyPat objCool = some ⟨"50".toList, []⟩ := by decide
  have ht4 : findToken windowPat objCool = none := by decide
  have hr1 : NumToken.toRat ⟨"3000".toList, []⟩ = 3000 := by
    simp only [NumToken.toRat]
    rw [show digitsToNat "3000".toList = 3000 from by decide,
      show digitsToNat ([] : List Char) = 0 from by decide]
    norm_num
  have hr2 : NumToken.toRat ⟨"1500".toList, []⟩ = 1500 := by
    simp only [NumToken.toRat]
    rw [show digitsToNat "1500".toList = 1500 from by decide,
      show digitsToNat ([] : List Char) = 0 from by decide]
    norm_num
  have hr3 : NumToken.toRat ⟨"50".toList, []⟩ = 50 := by
    simp only [NumToken.toRat]
    rw [show digitsToNat "50".toList = 50 from by decide,
      show digitsToNat ([] : List Char) = 0 from by decide]
    norm_num
  simp only [parse_free_tier_usage, hm, hb, ne_eq, not_true_eq_false, ite_false,
    reduceIte, Option.getD_some, hobj]
  simp only [parseObjFields, extract_number, extract_number_optional, findNumber,
    ht1, ht2, ht3, ht4, Option.map_some', Option.map_none', hr1, hr2, hr3]
  simp only [dCool, Except.ok.injEq, AmpUsageData.mk.injEq, CENTS_TO_DOLLARS]
  refine ⟨by norm_num, by norm_num, ?_, by norm_num, trivial, ?_⟩
  · rw [show (3000 : ℚ) / 100 = 30 from by norm_num,
      show (1500 : ℚ) / 100 = 15 from by norm_num]
    norm_num [used_percent_of, clampQ]
  · rfl

/-- C5 counterexample: in this document the only quoted-string
occurrence of the marker is immediately followed by a colon and a
brace, so the scan accepts it instead of skipping it, takes the brace
inside the string as the object start, and extraction then fails with
the unmatched-braces error instead of succeeding from the later genuine
occurrence: the accepted site index twenty is the brace inside the
quoted string. -/
theorem amp_marker_in_string_counterexample :
    findMarker trickyHtmlL = some 20
      ∧ parse_free_tier_usage trickyHtmlL 0 = .error .unmatchedBraces := by
  exact ⟨by decide, by decide⟩

/-- C5 amended: an occurrence of the marker that is a whole quoted
string literal (a quote immediately on both sides), or that is
quote-preceded and not immediately followed by a colon, equals sign or
opening brace, is skipped, and extraction succeeds using a later
genuine property site, as in the quoted-marker example document; an
in-string occurrence that itself mimics a property site is not
detected, since only the characters immediately surrounding the match
are inspected. -/
theorem amp_marker_quoted_literal_skipped :
    parse_free_tier_usage coolHtmlL 0 = .ok dCool
      ∧ findMarker coolHtmlL = some 63 := by
  exact ⟨parse_cool, by decide⟩

/-- C6: for every extracted object, a missing required numeric field
(quota, used or hourlyReplenishment, checked in that order) makes the
field-assembly stage return the field-not-found error for that field,
whose rendered message names it; the total model never panics. A
missing optional windowHours field leaves the window_hours result none
while the parse still succeeds whenever the required fields are
present. -/
theorem amp_missing_field_errors (obj : List Char) (now : Nat) :
    (findNumber quotaPat obj = none →
      parseObjFields obj now = .error (.fieldNotFound "quota")
        ∧ (AmpError.fieldNotFound "quota").message
            = "Field 'quota' not found in freeTierUsage object")
    ∧ (findNumber quotaPat obj ≠ none → findNumber usedPat obj = none →
        parseObjFields obj now = .error (.fieldNotFound "used"))
    ∧ (findNumber quotaPat obj ≠ none → findNumber usedPat obj ≠ none →
        findNumber hourlyPat obj = none →
        parseObjFields obj now = .error (.fieldNotFound "hourlyReplenishment"))
    ∧ (findNumber quotaPat obj ≠ none → findNumber usedPat obj ≠ none →
        findNumber hourlyPat obj ≠ none →
        ∃ d, parseObjFields obj now = .ok d ∧ d.window_hours = findNumber windowPat obj) := by
  refine ⟨fun h1 => ?_, fun h1 h2 => ?_, fun h1 h2 h3 => ?_, fun h1 h2 h3 => ?_⟩
  · exact ⟨by simp [parseObjFields, extract_number, h1], by decide⟩
  · obtain ⟨q1, e1⟩ := Option.ne_none_iff_exists'.mp h1
    simp [parseObjFields, extract_number, e1, h2]
  · obtain ⟨q1, e1⟩ := Option.ne_none_iff_exists'.mp h1
    obtain ⟨q2, e2⟩ := Option.ne_none_iff_exists'.mp h2
    simp [parseObjFields, extract_number, e1, e2, h3]
  · obtain ⟨q1, e1⟩ := Option.ne_none_iff_exists'.mp h1
    obtain ⟨q2, e2⟩ := Option.ne_none_iff_exists'.mp h2
    obtain ⟨q3, e3⟩ := Option.ne_none_iff_exists'.mp h3
    have hok : parseObjFields obj now
        = .ok { quota := q1 / CENTS_TO_DOLLARS
                used := q2 / CENTS_TO_DOLLARS
                used_percent := used_percent_of (q1 / CENTS_TO_DOLLARS) (q2 / CENTS_TO_DOLLARS)
                hourly_replenishment := q3 / CENTS_TO_DOLLARS
                window_hours := extract_number_optional obj windowPat
                resets_at := computeResetsAt (extract_number_optional obj windowPat) now } := by
      simp [parseObjFields, extract_number, e1, e2, e3]
    exact ⟨_, hok, rfl⟩

/-- C6 witness: the test-suite object missing its quota field yields
the error naming quota, and the object with all required fields but no
windowHours parses successfully with window_hours none. -/
theorem amp_missing_field_errors_witness :
    parseObjFields objNoQuota 0 = .error (.fieldNotFound "quota")
      ∧ ∃ d, parseObjFields objNoWindow 0 = .ok d ∧ d.window_hours = none := by
  constructor
  · exact ((amp_missing_field_errors objNoQuota 0).1
      (by simp [findNumber, show findToken quotaPat objNoQuota = none from by decide])).1
  · have h4 := (amp_missing_field_errors objNoWindow 0).2.2.2
      (by simp [findNumber, show findToken quotaPat objNoWindow = some ⟨"5000".toList, []⟩ from by decide])
      (by simp [findNumber, show findToken usedPat objNoWindow = some ⟨"1000".toList, []⟩ from by decide])
      (by simp [findNumber, show findToken hourlyPat objNoWindow = some ⟨"100".toList, []⟩ from by decide])
    have hw : findNumber windowPat objNoWindow = none := by
      simp [findNumber, show findToken windowPat objNoWindow = none from by decide]
    rwa [hw] at h4

/-- C7: in every successful Amp parse, an absent windowHours yields
resets_at none; a present windowHours whose window length in seconds
(the floor of hours times three thousand six hundred) is non-zero
yields, whenever the millisecond value fits an i64, the instant
obtained by rounding the current epoch-second time down to the nearest
multiple of the window length and adding one window, in epoch
milliseconds. -/
theorem amp_resets_at_epoch_aligned (html : List Char) (now : Nat) (d : AmpUsageData)
    (hok : parse_free_tier_usage html now = .ok d) :
    (d.window_hours = none → d.resets_at = none)
    ∧ ∀ hq : ℚ, d.window_hours = some hq →
        (Int.floor (hq * 3600)).toNat ≠ 0 →
        ((now - now % (Int.floor (hq * 3600)).toNat + (Int.floor (hq * 3600)).toNat : Nat) : Int)
            * 1000 ≤ 2 ^ 63 - 1 →
        d.resets_at
          = some (((now - now % (Int.floor (hq * 3600)).toNat
              + (Int.floor (hq * 3600)).toNat : Nat) : Int) * 1000) := by
  have hfield := (parse_ok_fields html now d hok).1
  constructor
  · intro hw
    rw [hfield, hw]
    rfl
  · intro hq hw hwnz hbound
    rw [hfield, hw]
    simp only [computeResetsAt, Option.bind]
    rw [if_neg hwnz]
    have hle : now - now % (Int.floor (hq * 3600)).toNat + (Int.floor (hq * 3600)).toNat
        ≤ 2 ^ 63 - 1 := by omega
    rw [if_pos hle, if_pos hbound]

/-- C7 witness: the minimal test document with windowHours one parses
to a window of three thousand six hundred seconds, and at epoch time
zero the theorem yields the reset instant of three million six hundred
thousand milliseconds. -/
theorem amp_resets_at_epoch_aligned_witness :
    parse_free_tier_usage minimalHtmlL 0 = .ok dMin ∧ dMin.resets_at = some 3600000 := by
  have hws : (Int.floor ((1 : ℚ) * 3600)).toNat = 3600 := by
    rw [show Int.floor ((1 : ℚ) * 3600) = 3600 from by norm_num]
    decide
  have h := (amp_resets_at_epoch_aligned minimalHtmlL 0 dMin parse_minimal).2 1 rfl
    (by rw [hws]; decide) (by rw [hws]; decide)
  refine ⟨parse_minimal, ?_⟩
  rw [h, hws]
  decide

/-! ## Claims about the OAuth client, the caches and the Z.ai client -/

/-- C2: a first 401 always performs exactly one refresh and at most one
retry; over every oracle the model never refreshes more than once or
issues more than two requests, so there is no unbounded retry loop; and
when the retried request returns 401 again the call terminates with the
terminal authentication error after exactly two requests and one
refresh. -/
theorem claude_fetch_usage_single_retry :
    (∀ (t : String) (r : Except String Unit) (tok2 : Except String String) (s2 : Nat),
      (fetch_usage_model (.ok t) 401 r tok2 s2).refreshes = 1
        ∧ (fetch_usage_model (.ok t) 401 r tok2 s2).requests ≤ 2)
    ∧ (∀ (tok1 : Except String String) (s1 : Nat) (r : Except String Unit)
        (tok2 : Except String String) (s2 : Nat),
        (fetch_usage_model tok1 s1 r tok2 s2).refreshes ≤ 1
          ∧ (fetch_usage_model tok1 s1 r tok2 s2).requests ≤ 2)
    ∧ ∀ (t : String),
        fetch_usage_model (.ok t) 401 (.ok ()) (.ok t) 401
          = ⟨.error "Authentication failed — please log in again", 2, 1⟩ := by
  refine ⟨fun t r tok2 s2 => ?_, fun tok1 s1 r tok2 s2 => ?_, fun t => rfl⟩
  · cases r <;> cases tok2 <;> simp [fetch_usage_model]
  · cases tok1 with
    | error e => simp [fetch_usage_model]
    | ok t =>
      by_cases h1 : s1 = 401
      · subst h1
        cases r <;> cases tok2 <;> simp [fetch_usage_model]
      · simp only [fetch_usage_model, if_neg h1]
        split_ifs <;> simp

/-- C3 counterexample: a credential-cache access through with_cache
does not degrade to a cache miss on a poisoned lock; the expect call
panics, modelled as the error carrying its panic message, at the
concrete poisoned state. -/
theorem cred_with_cache_poisoned_panics :
    with_cache (⟨true, none⟩ : MutexState (Option CredentialCache))
      (fun c => (c.zai_get 0, c))
      = .error "credential cache mutex poisoned" := rfl

/-- C3 amended: ResponseCache get, set and clear recover a poisoned
lock with into_inner and behave exactly as on an unpoisoned lock —
in particular a still-valid entry is returned as a hit rather than
treated as empty — and never panic; credential-cache accesses through
with_cache instead panic on a poisoned lock. -/
theorem cache_poison_recovery_behavior :
    (∀ (st : Option (CacheEntry Nat)) (now ttl : Nat),
        ResponseCache.get ⟨⟨true, st⟩, ttl⟩ now = ResponseCache.get ⟨⟨false, st⟩, ttl⟩ now)
    ∧ (∀ (st : Option (CacheEntry Nat)) (now ttl d : Nat),
        (ResponseCache.set ⟨⟨true, st⟩, ttl⟩ now d).entry.inner
          = (ResponseCache.set ⟨⟨false, st⟩, ttl⟩ now d).entry.inner)
    ∧ (∀ (st : Option (CacheEntry Nat)) (ttl : Nat),
        (ResponseCache.clear ⟨⟨true, st⟩, ttl⟩).entry.inner = none)
    ∧ (∀ (f : CredentialCache → Nat × CredentialCache),
        with_cache ⟨true, none⟩ f = .error "credential cache mutex poisoned")
    ∧ ∃ (e : CacheEntry Nat), ResponseCache.get ⟨⟨true, some e⟩, 30⟩ 0 = some e.data := by
  refine ⟨fun st now ttl => rfl, fun st now ttl d => rfl, fun st ttl => rfl,
    fun f => rfl, ⟨⟨7, 10⟩, rfl⟩⟩

/-- C4 counterexample: with an empty credential cache and a failing
store read, zai_read_api_key returns the error but leaves the cache
unchanged — the failure is not stored — so an immediately repeated read
consults the store again, as shown by the second read observing a fresh
store value. -/
theorem zai_read_failure_not_cached :
    zai_read_api_key CredentialCache.new 0
        (.error "Credential not found: usage-bar-zai-credentials") (fun _ => none)
      = (.error "Credential not found: usage-bar-zai-credentials", CredentialCache.new)
    ∧ (zai_read_api_key CredentialCache.new 0 (.ok "zai-key-abcdef") (fun _ => none)).1
      = .ok "zai-key-abcdef" :=
  ⟨rfl, rfl⟩

/-- C4 amended: only the has-key check caches a failed resolution;
after zai_has_api_key has run against a failing store, the failure sits
in the cache slot and a subsequent zai_read_api_key at the same instant
returns the cached error, wrapped with the cached-resolution prefix,
without consulting the store (the result is the same for every store
oracle) and without changing the cache; zai_read_api_key itself caches
only successes. -/
theorem zai_has_api_key_caches_failure (e : String) (now : Nat)
    (store2 : Except String String) (env2 : String → Option String) :
    (zai_has_api_key CredentialCache.new now (.error e) (fun _ => none)).1 = false
    ∧ ((zai_has_api_key CredentialCache.new now (.error e) (fun _ => none)).2).zai_api_key
        = some (now, .error e)
    ∧ zai_read_api_key ((zai_has_api_key CredentialCache.new now (.error e) (fun _ => none)).2)
        now store2 env2
      = (.error ("Cached Z.ai API key resolution failed: " ++ e),
         (zai_has_api_key CredentialCache.new now (.error e) (fun _ => none)).2) := by
  have h0 : zai_has_api_key CredentialCache.new now (.error e) (fun _ => none)
      = (false, CredentialCache.new.zai_set now (.error e)) := rfl
  refine ⟨by rw [h0], by rw [h0]; rfl, ?_⟩
  rw [h0]
  simp only [zai_read_api_key, CredentialCache.zai_get, CredentialCache.zai_set,
    CredentialCache.new, Option.some_bind, Nat.sub_self]
  norm_num [CredentialCache.TTL]

/-- The first component of the limits fold is determined by the last
TOKENS_LIMIT entry, earlier ones being overwritten. -/
lemma processLimits_token (l : List ZaiQuotaLimit) :
    ∀ acc, (processLimits acc l).1
      = match lastMatching (fun x => x.limit_type = "TOKENS_LIMIT") l with
        | some y => some ⟨y.percentage, y.next_reset_time⟩
        | none => acc.1 := by
  induction l with
  | nil => intro acc; rfl
  | cons x rest ih =>
    intro acc
    show (processLimits (processStep acc x) rest).1 = _
    rw [ih]
    cases hl : lastMatching (fun x => x.limit_type = "TOKENS_LIMIT") rest with
    | some y => simp [lastMatching, hl]
    | none =>
      simp only [lastMatching, hl]
      by_cases hx : x.limit_type = "TOKENS_LIMIT"
      · simp [processStep, hx]
      · by_cases hx2 : x.limit_type = "TIME_LIMIT"
        · simp [processStep, hx, hx2]
        · simp [processStep, hx, hx2]

/-- The second component of the limits fold is determined by the last
TIME_LIMIT entry, earlier ones being overwritten. -/
lemma processLimits_mcp (l : List ZaiQuotaLimit) :
    ∀ acc, (processLimits acc l).2.1
      = match lastMatching (fun x => x.limit_type = "TIME_LIMIT") l with
        | some y => some ⟨y.percentage, y.current_value.getD 0, y.usage.getD 0⟩
        | none => acc.2.1 := by
  induction l with
  | nil => intro acc; rfl
  | cons x rest ih =>
    intro acc
    show (processLimits (processStep acc x) rest).2.1 = _
    rw [ih]
    cases hl : lastMatching (fun x => x.limit_type = "TIME_LIMIT") rest with
    | some y => simp [lastMatching, hl]
    | none =>
      simp only [lastMatching, hl]
      by_cases hx : x.limit_type = "TOKENS_LIMIT"
      · have hx2 : ¬ x.limit_type = "TIME_LIMIT" := by rw [hx]; decide
        simp [processStep, hx, hx2]
      · by_cases hx2 : x.limit_type = "TIME_LIMIT"
        · simp [processStep, hx, hx2]
        · simp [processStep, hx, hx2]

/-- The running volume total of the limits fold is the usage field of
the last TIME_LIMIT entry, earlier ones being overwritten. -/
lemma processLimits_total (l : List ZaiQuotaLimit) :
    ∀ acc, (processLimits acc l).2.2
      = match lastMatching (fun x => x.limit_type = "TIME_LIMIT") l with
        | some y => y.usage
        | none => acc.2.2 := by
  induction l with
  | nil => intro acc; rfl
  | cons x rest ih =>
    intro acc
    show (processLimits (processStep acc x) rest).2.2 = _
    rw [ih]
    cases hl : lastMatching (fun x => x.limit_type = "TIME_LIMIT") rest with
    | some y => simp [lastMatching, hl]
    | none =>
      simp only [lastMatching, hl]
      by_cases hx : x.limit_type = "TOKENS_LIMIT"
      · have hx2 : ¬ x.limit_type = "TIME_LIMIT" := by rw [hx]; decide
        simp [processStep, hx, hx2]
      · by_cases hx2 : x.limit_type = "TIME_LIMIT"
        · simp [processStep, hx, hx2]
        · simp [processStep, hx, hx2]

/-- C9: when the limits list contains several entries of the same
recognized kind, the published token usage, mcp usage and inferred tier
all reflect the last such entry in list order. -/
theorem zai_last_entry_wins (limits : List ZaiQuotaLimit) :
    (handle_response limits).token_usage
        = (lastMatching (fun x => x.limit_type = "TOKENS_LIMIT") limits).map
            (fun y => ⟨y.percentage, y.next_reset_time⟩)
    ∧ (handle_response limits).mcp_usage
        = (lastMatching (fun x => x.limit_type = "TIME_LIMIT") limits).map
            (fun y => ⟨y.percentage, y.current_value.getD 0, y.usage.getD 0⟩)
    ∧ (handle_response limits).tier_name
        = inferTier ((lastMatching (fun x => x.limit_type = "TIME_LIMIT") limits).bind
            (fun y => y.usage)) := by
  have h1 := processLimits_token limits (none, none, none)
  have h2 := processLimits_mcp limits (none, none, none)
  have h3 := processLimits_total limits (none, none, none)
  unfold handle_response
  refine ⟨?_, ?_, ?_⟩
  · rw [h1]
    cases lastMatching (fun x => x.limit_type = "TOKENS_LIMIT") limits <;> rfl
  · rw [h2]
    cases lastMatching (fun x => x.limit_type = "TIME_LIMIT") limits <;> rfl
  · rw [h3]
    cases lastMatching (fun x => x.limit_type = "TIME_LIMIT") limits <;> rfl

/-- C8: the tier zai_get_all publishes is a pure function of the
TIME_LIMIT volume total, equal to the spec's threshold table: at least
fourteen hundred Max, at least three hundred Pro, positive Lite, zero,
negative or absent Unknown; the handling stage is total on a decoded
response, so inconclusive inference yields Unknown rather than a
failure. -/
theorem zai_tier_thresholds (limits : List ZaiQuotaLimit) :
    zai_get_all_tier (handle_response limits)
      = specTierOfTimeLimitTotal
          ((lastMatching (fun x => x.limit_type = "TIME_LIMIT") limits).bind
            (fun y => y.usage)) := by
  have h3 := processLimits_total limits (none, none, none)
  unfold zai_get_all_tier handle_response
  rw [h3]
  cases hl : lastMatching (fun x => x.limit_type = "TIME_LIMIT") limits with
  | none => rfl
  | some y =>
    show (inferTier y.usage).getD "Unknown" = specTierOfTimeLimitTotal y.usage
    cases hy : y.usage with
    | none => rfl
    | some t =>
      show (inferTier (some t)).getD "Unknown" = specTierOfTimeLimitTotal (some t)
      simp only [inferTier, specTierOfTimeLimitTotal, Option.some_bind]
      by_cases c1 : t ≥ 1400
      · simp [c1]
      · by_cases c2 : t ≥ 300
        · simp [c1, c2]
        · by_cases c3 : t > 0
          · simp [c1, c2, c3]
          · simp [c1, c2, c3]
